import Mathlib

/-!
Shallow embedding of the sequential identifier allocator of
`src/models/Case.model.js` and `src/models/Billing.model.js`, together with
the invoice total-amount recomputation hook of `src/models/Billing.model.js`.

Mongoose documents are modelled by their relevant fields; the persisted
collection is a list of the identifier strings already stored; the
`countDocuments` call is passed in as an `Except Unit Nat` (`.ok count` when
the query succeeds, `.error ()` when it throws); JS numbers used for money
are modelled as rationals; JS `Date.now()` is a natural number of epoch
milliseconds.
-/

namespace LegalMS

/-- Decimal digit character, `d < 10` intended (`'0'` has code 48). -/
def digitChar (d : Nat) : Char := Char.ofNat (48 + d)

/-- Decimal digits of `n`, least significant first (always nonempty, `0 ↦ ['0']`).
Together with `natStr` this embeds JS `Number.prototype.toString` (base 10)
and template-literal interpolation `${n}` for nonnegative integers. -/
def digitsRev (n : Nat) : List Char :=
  if _h : n < 10 then [digitChar n]
  else digitChar (n % 10) :: digitsRev (n / 10)
decreasing_by exact Nat.div_lt_self (by omega) (by omega)

/-- Decimal string of a nonnegative JS number, as in `${year}` or `Date.now().toString()`. -/
def natStr (n : Nat) : String := String.mk (digitsRev n).reverse

/-- JS `s.padStart(4, '0')`: left-pad with `'0'` up to length 4, strings of
length ≥ 4 are returned unchanged (never truncated). -/
def padStart4 (s : String) : String :=
  if 4 ≤ s.length then s else String.mk (List.replicate (4 - s.length) '0') ++ s

/-- `String(n).padStart(4, '0')` for a count value `n`. -/
def pad4 (n : Nat) : String := padStart4 (natStr n)

/-- JS `s.slice(-4)`: the last 4 characters (the whole string when shorter). -/
def sliceLast4 (s : String) : String := String.mk (s.data.drop (s.data.length - 4))

/-- The two entity kinds handled by the allocator. -/
inductive Kind where
  | Case
  | Invoice
deriving DecidableEq

/-- `Case.model.js` line 141: `` `CASE-${year}-${String(count + 1).padStart(4, '0')}` ``. -/
def caseHappy (year count : Nat) : String :=
  "CASE-" ++ natStr year ++ "-" ++ pad4 (count + 1)

/-- `Billing.model.js` line 152: `` `INV-${year}-${String(count + 1).padStart(4, '0')}` ``. -/
def invoiceHappy (year count : Nat) : String :=
  "INV-" ++ natStr year ++ "-" ++ pad4 (count + 1)

/-- `Case.model.js` lines 144-147 (catch branch):
`` `CASE-${year}-${Date.now().toString().slice(-4)}` ``. -/
def caseFallback (year millis : Nat) : String :=
  "CASE-" ++ natStr year ++ "-" ++ sliceLast4 (natStr millis)

/-- `Billing.model.js` lines 155-157 (catch branch): `` `INV-${year}-0001` ``. -/
def invoiceFallback (year : Nat) : String := "INV-" ++ natStr year ++ "-0001"

/-- The anchored pattern `` RegExp(`^CASE-${year}-`) `` of the Case count query. -/
def caseCountPattern (year : Nat) : String := "CASE-" ++ natStr year ++ "-"

/-- The anchored pattern `` RegExp(`^INV-${year}-`) `` of the Invoice count query. -/
def invoiceCountPattern (year : Nat) : String := "INV-" ++ natStr year ++ "-"

/-- The count-query pattern of a kind (`^{PREFIX}-{year}-`). -/
def idPrefix : Kind → Nat → String
  | .Case, year => caseCountPattern year
  | .Invoice, year => invoiceCountPattern year

/-- The happy-path identifier of a kind for an observed count. -/
def happyId : Kind → Nat → Nat → String
  | .Case, year, count => caseHappy year count
  | .Invoice, year, count => invoiceHappy year count

/-- Outcome of one pre-save allocation hook: the identifier field after the
hook, whether the count query was issued, and the error (if any) passed to
`next` — the hooks always call `next()` with no argument. -/
structure AllocResult where
  identifier : String
  queried : Bool
  err : Option Unit
deriving DecidableEq

/-- `caseSchema.pre('save')`, `Case.model.js` lines 133-151: generate
`caseNumber` only when `this.isNew && !this.caseNumber`; on count success use
`CASE-{year}-{pad4 (count+1)}`, on failure fall back to the low 4 digits of
`Date.now()`; always `next()` without an error. The unset `caseNumber` is
modelled as `""` (falsy in JS). -/
def casePreSave (isNew : Bool) (caseNumber : String) (year : Nat)
    (countQuery : Except Unit Nat) (millis : Nat) : AllocResult :=
  if isNew && (caseNumber == "") then
    match countQuery with
    | .ok count => { identifier := caseHappy year count, queried := true, err := none }
    | .error _ => { identifier := caseFallback year millis, queried := true, err := none }
  else
    { identifier := caseNumber, queried := false, err := none }

/-- `invoiceSchema.pre('save')` (number generation), `Billing.model.js` lines
145-161: generate `invoiceNumber` only when `!this.invoiceNumber` (no
`isNew` guard); on count success use `INV-{year}-{pad4 (count+1)}`, on
failure fall back to the constant `INV-{year}-0001`; always `next()` without
an error. -/
def invoicePreSaveNumber (invoiceNumber : String) (year : Nat)
    (countQuery : Except Unit Nat) : AllocResult :=
  if invoiceNumber == "" then
    match countQuery with
    | .ok count => { identifier := invoiceHappy year count, queried := true, err := none }
    | .error _ => { identifier := invoiceFallback year, queried := true, err := none }
  else
    { identifier := invoiceNumber, queried := false, err := none }

/-- The spec's `allocate(kind, creationTime, existingIdentifier)` operation,
dispatching to the two hooks at creation time (`isNew = true` for Case;
`year` is derived from the current time, `millis` is `Date.now()` for the
Case fallback, `countQuery` is the store's answer to the count query). -/
def allocate (k : Kind) (year : Nat) (existingIdentifier : String)
    (countQuery : Except Unit Nat) (millis : Nat) : AllocResult :=
  match k with
  | .Case => casePreSave true existingIdentifier year countQuery millis
  | .Invoice => invoicePreSaveNumber existingIdentifier year countQuery

/-- A stored identifier matches the anchored regex `^pat` iff `pat` is a
prefix of it. -/
def matchesPat (pat s : String) : Bool := decide (pat.data <+: s.data)

/-- `countDocuments({ identifier: RegExp(^pat) })` over a store of persisted
identifiers. -/
def countPat (pat : String) (store : List String) : Nat :=
  store.countP (matchesPat pat)

/-- One sequential allocate-then-persist cycle: the count query succeeds and
returns the true matching count of the store, the allocated identifier is
appended (persisted). -/
def stepStore (k : Kind) (year : Nat) (store : List String) : List String :=
  store ++ [(allocate k year "" (.ok (countPat (idPrefix k year) store)) 0).identifier]

/-- `n` sequential allocate-then-persist cycles starting from `store`. -/
def runSeq (k : Kind) (year : Nat) (store : List String) : Nat → List String
  | 0 => store
  | n + 1 => stepStore k year (runSeq k year store n)

/-- An invoice line item (`invoiceItemSchema`), money fields as rationals. -/
structure InvoiceItem where
  quantity : ℚ
  rate : ℚ
  amount : ℚ
deriving DecidableEq

/-- `invoiceItemSchema.pre('save')`, `Billing.model.js` lines 84-89:
recompute `amount` when `quantity` or `rate` was modified. -/
def itemPreSave (qtyModified rateModified : Bool) (it : InvoiceItem) : InvoiceItem :=
  if qtyModified || rateModified then { it with amount := it.quantity * it.rate } else it

/-- `invoiceSchema.pre('save')` (total calculation), `Billing.model.js` lines
137-142: when `items` was modified, `totalAmount = items.reduce((sum, item)
=> sum + item.amount, 0)`; otherwise `totalAmount` is untouched. -/
def invoiceTotalHook (itemsModified : Bool) (items : List InvoiceItem)
    (totalAmount : ℚ) : ℚ :=
  if itemsModified then items.foldl (fun sum it => sum + it.amount) 0 else totalAmount

/-! Basic facts about the decimal-string embedding. -/

theorem digitsRev_cons (n : Nat) (h : ¬ n < 10) :
    digitsRev n = digitChar (n % 10) :: digitsRev (n / 10) := by
  rw [digitsRev]
  exact dif_neg h

theorem digitsRev_single (n : Nat) (h : n < 10) : digitsRev n = [digitChar n] := by
  rw [digitsRev]
  exact dif_pos h

theorem digitChar_isDigit (d : Nat) (h : d < 10) : (digitChar d).isDigit = true := by
  interval_cases d <;> decide

theorem digitsRev_length_pos (n : Nat) : 0 < (digitsRev n).length := by
  rw [digitsRev]
  split <;> simp

theorem digitsRev_length_of_pow_le (k : Nat) :
    ∀ n : Nat, 10 ^ k ≤ n → k + 1 ≤ (digitsRev n).length := by
  induction k with
  | zero => intro n _; exact digitsRev_length_pos n
  | succ k ih =>
    intro n hn
    have h10 : ¬ n < 10 := by
      have : 10 ≤ 10 ^ (k + 1) := by
        calc 10 = 10 ^ 1 := (pow_one 10).symm
        _ ≤ 10 ^ (k + 1) := Nat.pow_le_pow_right (by omega) (by omega)
      omega
    have hdiv : 10 ^ k ≤ n / 10 := by
      rw [Nat.le_div_iff_mul_le (by omega)]
      calc 10 ^ k * 10 = 10 ^ (k + 1) := (pow_succ 10 k).symm
      _ ≤ n := hn
    rw [digitsRev_cons n h10]
    have := ih (n / 10) hdiv
    simp only [List.length_cons]
    omega

theorem digitsRev_all_digits (n : Nat) : ∀ c ∈ digitsRev n, c.isDigit = true := by
  induction n using Nat.strong_induction_on with
  | _ n ih =>
    by_cases h : n < 10
    · rw [digitsRev_single n h]
      intro c hc
      simp only [List.mem_singleton] at hc
      subst hc
      exact digitChar_isDigit n h
    · rw [digitsRev_cons n h]
      intro c hc
      rcases List.mem_cons.mp hc with hc | hc
      · subst hc
        exact digitChar_isDigit _ (Nat.mod_lt _ (by omega))
      · exact ih (n / 10) (Nat.div_lt_self (by omega) (by omega)) c hc

theorem natStr_length (n : Nat) : (natStr n).length = (digitsRev n).length := by
  simp [natStr, String.length]

theorem natStr_length_ge4 (n : Nat) (h : 1000 ≤ n) : 4 ≤ (natStr n).length := by
  rw [natStr_length]
  have h3 : 10 ^ 3 ≤ n := by norm_num; omega
  have := digitsRev_length_of_pow_le 3 n h3
  omega

theorem natStr_all_digits (n : Nat) : ∀ c ∈ (natStr n).data, c.isDigit = true := by
  intro c hc
  simp only [natStr] at hc
  exact digitsRev_all_digits n c (List.mem_reverse.mp hc)

/-! String-shape helper lemmas. -/

theorem string_eq_of_data (a b : String) (h : a.data = b.data) : a = b := by
  cases a; cases b; simp_all

theorem append_ne_empty (a b : String) (h : a.length ≠ 0) : a ++ b ≠ "" := by
  intro he
  have hl := congrArg String.length he
  rw [String.length_append] at hl
  have h0 : ("" : String).length = 0 := rfl
  omega

theorem caseFallback_ne_empty (y m : Nat) : caseFallback y m ≠ "" := by
  unfold caseFallback
  apply append_ne_empty
  rw [String.length_append, String.length_append]
  have h5 : ("CASE-" : String).length = 5 := rfl
  omega

theorem invoiceFallback_ne_empty (y : Nat) : invoiceFallback y ≠ "" := by
  unfold invoiceFallback
  apply append_ne_empty
  rw [String.length_append]
  have h4 : ("INV-" : String).length = 4 := rfl
  omega

theorem invoiceHappy_ne_empty (y c : Nat) : invoiceHappy y c ≠ "" := by
  unfold invoiceHappy
  apply append_ne_empty
  rw [String.length_append, String.length_append]
  have h4 : ("INV-" : String).length = 4 := rfl
  omega

theorem caseHappy_eq_pattern_append (y c : Nat) :
    caseHappy y c = caseCountPattern y ++ pad4 (c + 1) := rfl

theorem invoiceHappy_eq_pattern_append (y c : Nat) :
    invoiceHappy y c = invoiceCountPattern y ++ pad4 (c + 1) := rfl

theorem caseFallback_eq_pattern_append (y m : Nat) :
    caseFallback y m = caseCountPattern y ++ sliceLast4 (natStr m) := rfl

theorem happyId_eq_pattern_append (k : Kind) (y c : Nat) :
    happyId k y c = idPrefix k y ++ pad4 (c + 1) := by
  cases k <;> rfl

theorem matchesPat_append (p t : String) : matchesPat p (p ++ t) = true := by
  simp only [matchesPat, String.data_append, decide_eq_true_eq]
  exact ⟨t.data, rfl⟩

theorem matchesPat_happyId (k : Kind) (y c : Nat) :
    matchesPat (idPrefix k y) (happyId k y c) = true := by
  rw [happyId_eq_pattern_append]
  exact matchesPat_append _ _

theorem countPat_append_one (p : String) (store : List String) (s : String)
    (h : matchesPat p s = true) :
    countPat p (store ++ [s]) = countPat p store + 1 := by
  simp [countPat, List.countP_append, List.countP_cons, h]

theorem allocate_ok_identifier (k : Kind) (y c m : Nat) :
    (allocate k y "" (.ok c) m).identifier = happyId k y c := by
  cases k <;> rfl

theorem pad4_no_truncate (n : Nat) (h : 4 ≤ (natStr n).length) : pad4 n = natStr n := by
  rw [pad4, padStart4, if_pos h]

theorem sliceLast4_length (s : String) (h : 4 ≤ s.length) : (sliceLast4 s).length = 4 := by
  have hd : s.length = s.data.length := rfl
  simp only [sliceLast4, String.length]
  simp only [List.length_drop]
  omega

theorem sliceLast4_suffix (s : String) : (sliceLast4 s).data <:+ s.data :=
  ⟨s.data.take (s.data.length - 4), List.take_append_drop _ _⟩

theorem sliceLast4_all_digits (m : Nat) :
    ∀ c ∈ (sliceLast4 (natStr m)).data, c.isDigit = true := by
  intro c hc
  exact natStr_all_digits m c (List.mem_of_mem_drop hc)

theorem invoicePreSaveNumber_ne_empty (n : String) (y : Nat) (q : Except Unit Nat) :
    (invoicePreSaveNumber n y q).identifier ≠ "" := by
  unfold invoicePreSaveNumber
  by_cases h : n = ""
  · subst h
    cases q with
    | ok c => simpa using invoiceHappy_ne_empty y c
    | error e => simpa using invoiceFallback_ne_empty y
  · have hb : (n == "") = false := by simp [h]
    simpa [hb] using h

theorem foldl_add_amount (items : List InvoiceItem) (a : ℚ) :
    items.foldl (fun sum it => sum + it.amount) a
      = a + (items.map (fun it => it.amount)).sum := by
  induction items generalizing a with
  | nil => simp
  | cons x xs ih => simp [ih, add_assoc]

/-- The invariant driving the sequential-monotonicity claim: after `n`
allocate-then-persist cycles over a store that starts with no matching
identifiers, the store holds the original entries followed by the happy-path
identifiers for counts `0, 1, …, n-1`, and the matching count equals `n`. -/
theorem runSeq_spec (k : Kind) (y : Nat) (store₀ : List String)
    (h : countPat (idPrefix k y) store₀ = 0) (n : Nat) :
    runSeq k y store₀ n = store₀ ++ (List.range n).map (fun i => happyId k y i)
      ∧ countPat (idPrefix k y) (runSeq k y store₀ n) = n := by
  induction n with
  | zero => simpa [runSeq] using h
  | succ n ih =>
    obtain ⟨ih1, ih2⟩ := ih
    constructor
    · rw [runSeq, stepStore, ih2, allocate_ok_identifier, ih1]
      rw [List.range_succ, List.map_append, List.append_assoc]
      rfl
    · rw [runSeq, stepStore, ih2, allocate_ok_identifier]
      rw [countPat_append_one _ _ _ (matchesPat_happyId k y n), ih2]

theorem casePreSave_err (b : Bool) (s : String) (y : Nat) (q : Except Unit Nat) (m : Nat) :
    (casePreSave b s y q m).err = none := by
  unfold casePreSave
  split
  · cases q <;> rfl
  · rfl

theorem invoicePreSaveNumber_err (s : String) (y : Nat) (q : Except Unit Nat) :
    (invoicePreSaveNumber s y q).err = none := by
  unfold invoicePreSaveNumber
  split
  · cases q <;> rfl
  · rfl

/-! Claim theorems. -/

/-- C1. Happy-path allocation: for every kind and year, when no identifier is
pre-supplied and the count query succeeds with `count`, `allocate` returns
`{PREFIX}-{year}-` followed by `count + 1` zero-padded to width 4, and values
of `count + 1 ≥ 10000` are not truncated (the padded field is the full
decimal representation). -/
theorem C1_happy_path_allocation (k : Kind) (y c m : Nat) :
    (allocate k y "" (.ok c) m).identifier = idPrefix k y ++ pad4 (c + 1)
      ∧ (10000 ≤ c + 1 → pad4 (c + 1) = natStr (c + 1)) := by
  constructor
  · rw [allocate_ok_identifier, happyId_eq_pattern_append]
  · intro h
    exact pad4_no_truncate _ (natStr_length_ge4 _ (by omega))

theorem C1_happy_path_allocation_witness :
    (allocate Kind.Case 2024 "" (Except.ok 9999) 0).identifier
        = idPrefix Kind.Case 2024 ++ pad4 (9999 + 1)
      ∧ pad4 (9999 + 1) = natStr (9999 + 1) :=
  ⟨(C1_happy_path_allocation Kind.Case 2024 9999 0).1,
   (C1_happy_path_allocation Kind.Case 2024 9999 0).2 (by decide)⟩

/-- C2. No-op on pre-supplied identifier: for every kind, year, count-query
outcome and non-empty existing identifier (well-formed or not), `allocate`
returns the existing identifier unchanged and issues no count query. -/
theorem C2_noop_on_existing (k : Kind) (y : Nat) (ex : String) (h : ex ≠ "")
    (q : Except Unit Nat) (m : Nat) :
    allocate k y ex q m = { identifier := ex, queried := false, err := none } := by
  have hb : (ex == "") = false := by simp [h]
  cases k <;> simp [allocate, casePreSave, invoicePreSaveNumber, hb]

theorem C2_noop_on_existing_witness :
    "CASE-2024-0007" ≠ ""
      ∧ allocate Kind.Case 2024 "CASE-2024-0007" (Except.ok 5) 0
          = { identifier := "CASE-2024-0007", queried := false, err := none } :=
  ⟨by decide,
   C2_noop_on_existing Kind.Case 2024 "CASE-2024-0007" (by decide) (Except.ok 5) 0⟩

/-- C3. Count-determinism underlying the race: two allocation calls with no
pre-supplied identifier that observe the same count compute the same sequence
`count + 1` and hence the same identifier string, whatever else (here: the
millisecond clock) differs between them. -/
theorem C3_count_determinism (k : Kind) (y c m₁ m₂ : Nat) :
    (allocate k y "" (.ok c) m₁).identifier = (allocate k y "" (.ok c) m₂).identifier
      ∧ (allocate k y "" (.ok c) m₁).identifier = idPrefix k y ++ pad4 (c + 1) := by
  rw [allocate_ok_identifier, allocate_ok_identifier, happyId_eq_pattern_append]
  exact ⟨rfl, rfl⟩

/-- C4. Assigned-once lifecycle: a Case save with `isNew = false` leaves
`caseNumber` untouched and issues no query, whatever its value; and re-running
the Invoice number hook on the identifier produced by any previous run leaves
it unchanged (the hook always leaves a non-empty `invoiceNumber` behind, and a
non-empty number is never reassigned). -/
theorem C4_assigned_once :
    (∀ (caseNumber : String) (y : Nat) (q : Except Unit Nat) (m : Nat),
        casePreSave false caseNumber y q m
          = { identifier := caseNumber, queried := false, err := none })
      ∧ (∀ (invoiceNumber : String) (y : Nat) (q : Except Unit Nat)
            (y' : Nat) (q' : Except Unit Nat),
          invoicePreSaveNumber (invoicePreSaveNumber invoiceNumber y q).identifier y' q'
            = { identifier := (invoicePreSaveNumber invoiceNumber y q).identifier,
                queried := false, err := none }) := by
  constructor
  · intro cn y q m
    simp [casePreSave]
  · intro n y q y' q'
    have h := invoicePreSaveNumber_ne_empty n y q
    generalize (invoicePreSaveNumber n y q).identifier = s at h ⊢
    have hb : (s == "") = false := by simp [h]
    simp [invoicePreSaveNumber, hb]

/-- C5. Invoice fallback: whenever the count query fails during Invoice
allocation with no pre-supplied identifier, the result is exactly the literal
`INV-{year}-0001`, independent of the store state and of the clock. -/
theorem C5_invoice_fallback_constant (y m : Nat) (e : Unit) :
    allocate Kind.Invoice y "" (.error e) m
      = { identifier := "INV-" ++ natStr y ++ "-0001", queried := true, err := none } := rfl

/-- C6. Case fallback: whenever the count query fails during Case allocation
with no pre-supplied identifier (and the clock shows a realistic
epoch-millisecond value, ≥ 1000), the result is `CASE-{year}-` followed by the
last 4 characters of the decimal timestamp — a length-4, all-digit suffix of
the timestamp's decimal representation, matching `CASE-{year}-\d{4}`. -/
theorem C6_case_fallback_format (y m : Nat) (h : 1000 ≤ m) :
    (allocate Kind.Case y "" (.error ()) m).identifier
        = caseCountPattern y ++ sliceLast4 (natStr m)
      ∧ (sliceLast4 (natStr m)).length = 4
      ∧ (sliceLast4 (natStr m)).data <:+ (natStr m).data
      ∧ ∀ c ∈ (sliceLast4 (natStr m)).data, c.isDigit = true :=
  ⟨rfl, sliceLast4_length _ (natStr_length_ge4 m h), sliceLast4_suffix _,
   sliceLast4_all_digits m⟩

theorem C6_case_fallback_format_witness :
    1000 ≤ 1234
      ∧ ((allocate Kind.Case 2024 "" (Except.error ()) 1234).identifier
            = caseCountPattern 2024 ++ sliceLast4 (natStr 1234)
          ∧ (sliceLast4 (natStr 1234)).length = 4
          ∧ (sliceLast4 (natStr 1234)).data <:+ (natStr 1234).data
          ∧ ∀ c ∈ (sliceLast4 (natStr 1234)).data, c.isDigit = true) :=
  ⟨by decide, C6_case_fallback_format 2024 1234 (by decide)⟩

/-- C7. Failure containment: for every kind and every input the hook passes no
error to `next` (allocation never surfaces a count-query failure to the
caller), and on a failed count query it still completes with a non-empty
fallback identifier. -/
theorem C7_failure_containment :
    (∀ (k : Kind) (y : Nat) (ex : String) (q : Except Unit Nat) (m : Nat),
        (allocate k y ex q m).err = none)
      ∧ (∀ (k : Kind) (y m : Nat),
          (allocate k y "" (.error ()) m).identifier ≠ "") := by
  constructor
  · intro k y ex q m
    cases k
    · exact casePreSave_err true ex y q m
    · exact invoicePreSaveNumber_err ex y q
  · intro k y m
    cases k
    · simpa [allocate, casePreSave] using caseFallback_ne_empty y m
    · simpa [allocate, invoicePreSaveNumber] using invoiceFallback_ne_empty y

/-- C8. Sequential monotonicity: starting from a store with no identifiers of
the given kind and year, `n` sequential allocate-then-persist cycles append
exactly the happy-path identifiers for counts `0, 1, …, n-1` in creation
order, i.e. the k-th call yields sequence `k`
(`{PREFIX}-{year}-0001, -0002, …`). -/
theorem C8_sequential_monotonicity (k : Kind) (y : Nat) (store₀ : List String)
    (h : countPat (idPrefix k y) store₀ = 0) (n : Nat) :
    runSeq k y store₀ n = store₀ ++ (List.range n).map (fun i => happyId k y i) :=
  (runSeq_spec k y store₀ h n).1

theorem C8_sequential_monotonicity_witness :
    countPat (idPrefix Kind.Case 2024) [] = 0
      ∧ runSeq Kind.Case 2024 [] 3
          = [] ++ (List.range 3).map (fun i => happyId Kind.Case 2024 i) :=
  ⟨rfl, C8_sequential_monotonicity Kind.Case 2024 [] rfl 3⟩

/-- C9. Invoice totals: when the `items` field was modified, the pre-save hook
sets `totalAmount` to the sum of the items' `amount` fields (0 for no items);
when `items` was not modified, `totalAmount` is left unchanged. -/
theorem C9_invoice_total (items : List InvoiceItem) (t : ℚ) :
    invoiceTotalHook true items t = (items.map (fun it => it.amount)).sum
      ∧ invoiceTotalHook false items t = t := by
  constructor
  · simp [invoiceTotalHook, foldl_add_amount]
  · rfl

/-- C10. Every Case-fallback identifier starts with the `CASE-{year}-` prefix
used by the happy-path count query of the same year, so persisting it
increments the matching count by one, and the next happy-path allocation over
the grown store computes the shifted sequence `count + 2`. -/
theorem C10_fallback_counted (y m : Nat) (store : List String) :
    matchesPat (caseCountPattern y) (caseFallback y m) = true
      ∧ countPat (caseCountPattern y) (store ++ [caseFallback y m])
          = countPat (caseCountPattern y) store + 1
      ∧ (allocate Kind.Case y ""
            (.ok (countPat (caseCountPattern y) (store ++ [caseFallback y m]))) 0).identifier
          = caseHappy y (countPat (caseCountPattern y) store + 1) := by
  have h1 : matchesPat (caseCountPattern y) (caseFallback y m) = true := by
    rw [caseFallback_eq_pattern_append]
    exact matchesPat_append _ _
  have h2 := countPat_append_one (caseCountPattern y) store _ h1
  refine ⟨h1, h2, ?_⟩
  rw [h2]
  exact allocate_ok_identifier Kind.Case y _ 0

end LegalMS
